/-
Verification of the orchestrator core of the agentswarm-intelligence
repository: a shallow embedding in Lean 4 of the consensus calculator
(src/backend/orchestrator/src/services/consensusCalculator.ts), the agent
registry and reputation updater
(src/backend/orchestrator/src/services/agentRegistry.ts), and the
dispatch route's pre-network and per-call logic
(src/backend/orchestrator/src/routes/orchestrator.ts).

JavaScript numbers are modelled as exact rationals (ℚ); `Math.round` is
modelled as `jsRound x = ⌊x + 1/2⌋`, which is the rounding JavaScript
performs on every input (half away from zero is NOT what JS does:
Math.round(-2.5) = -2 = ⌊-2.5 + 0.5⌋). Fallible code returns Option.
-/
import Mathlib

namespace AgentSwarm

/-- JavaScript `Math.round`: floor of x + 1/2. -/
def jsRound (q : ℚ) : ℤ := ⌊q + 1/2⌋

/-- `Math.round(x * 100) / 100`, the 2-decimal rounding used for
consensusStrength. -/
def round2 (q : ℚ) : ℚ := (jsRound (q * 100) : ℚ) / 100

/-- JavaScript `reduce((sum, x) => sum + x, 0)` over a list of numbers. -/
def listSum (l : List ℚ) : ℚ := l.foldl (· + ·) 0

/-- The fields of the TS `AgentResponse` interface that the consensus
calculator reads: `score`, `riskLevel` (compared against string literals,
so kept as a string), and `metadata?.price` (possibly absent). -/
structure AgentResponseC where
  score : ℚ
  riskLevel : String
  metadataPrice : Option ℚ
deriving DecidableEq, Repr

/-- The TS `ConsensusResult` interface. -/
structure ConsensusResult where
  averageScore : ℤ
  consensusStrength : ℚ
  recommendation : String
  confidence : ℤ
  totalCost : ℚ
  responses : List AgentResponseC
deriving DecidableEq, Repr

/-- `ConsensusCalculator.calculateVariance`: population variance, mean of
squared deviations with denominator N. -/
def calculateVariance (numbers : List ℚ) : ℚ :=
  let mean := listSum numbers / numbers.length
  let squaredDiffs := numbers.map (fun n => (n - mean) ^ 2)
  listSum squaredDiffs / numbers.length

/-- `ConsensusCalculator.determineRecommendation`: note that `avgScore`
is the raw (unrounded) mean at the call site in `calculateConsensus`. -/
def determineRecommendation (responses : List AgentResponseC) (avgScore : ℚ) :
    String :=
  let criticalCount := (responses.filter (fun r => r.riskLevel = "CRITICAL")).length
  let highCount := (responses.filter (fun r => r.riskLevel = "HIGH")).length
  if criticalCount > 0 then
    "CRITICAL RISK - AVOID COMPLETELY"
  else if (highCount : ℚ) ≥ (responses.length : ℚ) / 2 then
    "HIGH RISK - DO NOT RECOMMEND"
  else if avgScore ≥ 80 then
    "LOW RISK - APPEARS SAFE"
  else if avgScore ≥ 60 then
    "MEDIUM RISK - EXERCISE CAUTION"
  else if avgScore ≥ 40 then
    "HIGH RISK - NOT RECOMMENDED"
  else
    "CRITICAL RISK - AVOID COMPLETELY"

/-- `ConsensusCalculator.calculateConsensus`. The TS function throws on an
empty list; the embedding returns `none` there. -/
def calculateConsensus (responses : List AgentResponseC) :
    Option ConsensusResult :=
  if responses.length = 0 then none
  else
    let averageScore := listSum (responses.map (·.score)) / responses.length
    let scores := responses.map (·.score)
    let variance := calculateVariance scores
    let maxVariance : ℚ := 2500
    let consensusStrength := max 0 (1 - variance / maxVariance)
    let recommendation := determineRecommendation responses averageScore
    let confidence :=
      jsRound (consensusStrength * 100 * ((min responses.length 5 : ℕ) / 5 : ℚ))
    let totalCost := listSum (responses.map (fun r => r.metadataPrice.getD 0))
    some
      { averageScore := jsRound averageScore
        consensusStrength := round2 consensusStrength
        recommendation := recommendation
        confidence := confidence
        totalCost := totalCost
        responses := responses }

/-! Spec-side definitions (phrased from the specification's words, for
refinement comparison against the embedded code). -/

/-- Spec: the arithmetic mean of a list of scores. -/
def specMean (scores : List ℚ) : ℚ := scores.sum / scores.length

/-- Spec: population variance — the mean of squared deviations from the
mean, denominator N (not N−1). -/
def specPopulationVariance (scores : List ℚ) : ℚ :=
  specMean (scores.map (fun s => (s - specMean scores) ^ 2))

/-- Spec: consensusStrength = max(0, 1 − variance/2500), rounded to
2 decimals. -/
def specConsensusStrength (scores : List ℚ) : ℚ :=
  round2 (max 0 (1 - specPopulationVariance scores / 2500))

/-- The unrounded strength value max(0, 1 − variance/2500); the code feeds
this (not its 2-decimal rounding) into the confidence formula. -/
def rawConsensusStrength (scores : List ℚ) : ℚ :=
  max 0 (1 - specPopulationVariance scores / 2500)

/-- Spec: the recommendation precedence rule — any CRITICAL first, then
majority-HIGH, then mean-score tiers (here taking the mean as argument). -/
def specRecommendation (responses : List AgentResponseC) (meanScore : ℚ) :
    String :=
  if responses.any (fun r => r.riskLevel = "CRITICAL") then
    "CRITICAL RISK - AVOID COMPLETELY"
  else if responses.length ≤ 2 * responses.countP (fun r => r.riskLevel = "HIGH") then
    "HIGH RISK - DO NOT RECOMMEND"
  else if meanScore ≥ 80 then
    "LOW RISK - APPEARS SAFE"
  else if meanScore ≥ 60 then
    "MEDIUM RISK - EXERCISE CAUTION"
  else if meanScore ≥ 40 then
    "HIGH RISK - NOT RECOMMENDED"
  else
    "CRITICAL RISK - AVOID COMPLETELY"

/-! Basic bridging lemmas between the JS-shaped folds and Mathlib's
list operations. -/

lemma foldl_add_eq (c : ℚ) (l : List ℚ) : l.foldl (· + ·) c = c + l.sum := by
  induction l generalizing c with
  | nil => simp
  | cons a l ih => simp [List.foldl_cons, ih, add_assoc]

lemma listSum_eq_sum (l : List ℚ) : listSum l = l.sum := by
  simp [listSum, foldl_add_eq]

lemma calculateVariance_eq_spec (l : List ℚ) :
    calculateVariance l = specPopulationVariance l := by
  simp [calculateVariance, specPopulationVariance, specMean, listSum_eq_sum]

/-! The agent registry
(src/backend/orchestrator/src/services/agentRegistry.ts). The `Map` of
agents keyed by id is modelled as a list of records with distinct ids. -/

/-- The `RegisteredAgent` interface (the category tag is kept as a
string). -/
structure RegisteredAgent where
  id : String
  name : String
  agentType : String
  endpoint : String
  basePrice : ℚ
  reputation : ℤ
  totalTasks : ℕ
  successRate : ℚ
  averageResponseTime : ℚ
  active : Bool
deriving DecidableEq, Repr

/-- The `AgentBid` interface. -/
structure AgentBid where
  agentId : String
  agentName : String
  endpoint : String
  price : ℚ
  estimatedTime : ℚ
  confidence : ℤ
deriving DecidableEq, Repr

/-- The statically configured security specialist. -/
def securityAgent0 : RegisteredAgent :=
  { id := "security-001", name := "SecurityAgent", agentType := "security",
    endpoint := "http://localhost:3002", basePrice := 100000,
    reputation := 95, totalTasks := 0, successRate := 1,
    averageResponseTime := 2000, active := true }

/-- The statically configured data specialist. -/
def dataAgent0 : RegisteredAgent :=
  { id := "data-001", name := "DataAgent", agentType := "data",
    endpoint := "http://localhost:3003", basePrice := 80000,
    reputation := 92, totalTasks := 0, successRate := 1,
    averageResponseTime := 1500, active := true }

/-- The statically configured social specialist. -/
def socialAgent0 : RegisteredAgent :=
  { id := "social-001", name := "SocialAgent", agentType := "social",
    endpoint := "http://localhost:3004", basePrice := 50000,
    reputation := 88, totalTasks := 0, successRate := 1,
    averageResponseTime := 3000, active := true }

/-- The statically configured price specialist. -/
def priceAgent0 : RegisteredAgent :=
  { id := "price-001", name := "PriceAgent", agentType := "price",
    endpoint := "http://localhost:3005", basePrice := 150000,
    reputation := 90, totalTasks := 0, successRate := 1,
    averageResponseTime := 2500, active := true }

/-- The statically configured history specialist. -/
def historyAgent0 : RegisteredAgent :=
  { id := "history-001", name := "HistoryAgent", agentType := "history",
    endpoint := "http://localhost:3006", basePrice := 80000,
    reputation := 93, totalTasks := 0, successRate := 1,
    averageResponseTime := 2000, active := true }

/-- `AgentRegistry.initializeAgents`: the five statically configured
specialists (endpoints at their defaults). -/
def initialAgents : List RegisteredAgent :=
  [securityAgent0, dataAgent0, socialAgent0, priceAgent0, historyAgent0]

/-- `AgentRegistry.getAllActiveAgents`. -/
def getAllActiveAgents (R : List RegisteredAgent) : List RegisteredAgent :=
  R.filter (·.active)

/-- Stable insertion for the descending sort by confidence:
`Array.prototype.sort` with comparator `(a, b) => b.confidence - a.confidence`
is stable in JS, so a strictly greater confidence moves ahead and ties keep
their original order. -/
def insertBid (x : AgentBid) : List AgentBid → List AgentBid
  | [] => [x]
  | y :: ys => if y.confidence < x.confidence then x :: y :: ys
               else y :: insertBid x ys

/-- Stable sort descending by confidence (elements inserted in original
order). -/
def sortBids (l : List AgentBid) : List AgentBid :=
  l.foldl (fun acc x => insertBid x acc) []

/-- `AgentRegistry.getAgentBids`: filter active agents by
`basePrice <= budget`, map to bids, sort descending by confidence. -/
def getAgentBids (R : List RegisteredAgent) (budget : ℚ) : List AgentBid :=
  sortBids
    (((getAllActiveAgents R).filter (fun a => a.basePrice ≤ budget)).map
      (fun a =>
        { agentId := a.id, agentName := a.name, endpoint := a.endpoint,
          price := a.basePrice, estimatedTime := a.averageResponseTime,
          confidence := a.reputation }))

/-- The mutation `AgentRegistry.updateAgentReputation` performs on the
record it found: `totalTasks++` first, so `totalTasks - 1` in the source
is the old task count. -/
def updateAgent (a : RegisteredAgent) (success : Bool) (responseTime : ℚ) :
    RegisteredAgent :=
  let totalTasks := a.totalTasks + 1
  let successCount : ℤ :=
    jsRound (a.successRate * a.totalTasks) + (if success then 1 else 0)
  let successRate : ℚ := (successCount : ℚ) / totalTasks
  { a with
    totalTasks := totalTasks
    successRate := successRate
    reputation := jsRound (successRate * 100)
    averageResponseTime :=
      (a.averageResponseTime * a.totalTasks + responseTime) / totalTasks }

/-- `AgentRegistry.updateAgentReputation`: `if (!agent) return;` — an
unknown id mutates nothing; a known id updates exactly its record. -/
def updateAgentReputation (R : List RegisteredAgent) (id : String)
    (success : Bool) (responseTime : ℚ) : List RegisteredAgent :=
  R.map (fun a => if a.id = id then updateAgent a success responseTime else a)

/-- A sequence of all-success reputation updates applied to one agent
record (the response times of the successive calls given as a list). -/
def allSuccessCalls (a : RegisteredAgent) (rts : List ℚ) : RegisteredAgent :=
  rts.foldl (fun s t => updateAgent s true t) a

/-- Registry states reachable in a process: the initial catalog followed by
any sequence of reputation updates. -/
inductive ReachableRegistry : List RegisteredAgent → Prop
  | init : ReachableRegistry initialAgents
  | step {R : List RegisteredAgent} (id : String) (success : Bool)
      (responseTime : ℚ) (h : ReachableRegistry R) :
      ReachableRegistry (updateAgentReputation R id success responseTime)

/-! The dispatch route `POST /api/orchestrator/request`
(src/backend/orchestrator/src/routes/orchestrator.ts): the pre-network
phase (field validation, bid lookup, budget check) and the per-call
result construction. -/

/-- The `IntelligenceRequest` body as received over the wire: every field
may be absent. -/
structure IntelligenceRequest where
  query : Option String
  tokenAddress : Option String
  budget : Option ℚ
  requesterAddress : Option String
deriving DecidableEq, Repr

/-- JS falsiness of an optional string: absent or empty. -/
def falsyStr : Option String → Bool
  | none => true
  | some s => s = ""

/-- JS falsiness of an optional number: absent or zero (NaN is outside the
rational model). -/
def falsyNum : Option ℚ → Bool
  | none => true
  | some q => q = 0

/-- The route's guard `!request.query || !request.budget ||
!request.requesterAddress`. -/
def missingRequiredFields (req : IntelligenceRequest) : Bool :=
  falsyStr req.query || falsyNum req.budget || falsyStr req.requesterAddress

/-- Where the route handler ends up before any specialist network call is
issued: the 400 validation error, the 400 budget-too-low error (carrying
the `minimumBudget` value of its JSON body), or the dispatch of the bid
list to the specialists. -/
inductive RouteStage where
  | validationError : RouteStage
  | budgetTooLow : ℚ → RouteStage
  | dispatch : List AgentBid → RouteStage
deriving DecidableEq, Repr

/-- `true` exactly on the dispatch stage (specialist calls issued). -/
def RouteStage.isDispatch : RouteStage → Bool
  | .dispatch _ => true
  | _ => false

/-- Number of bids broadcast to specialists (0 on the error stages). -/
def RouteStage.dispatchCount : RouteStage → ℕ
  | .dispatch bids => bids.length
  | _ => 0

/-- The pre-network phase of the `/request` handler: field validation,
then `getAgentBids(request.budget)`, then the empty-bids check with the
hardcoded `minimumBudget: 50000`. -/
def routeDecision (R : List RegisteredAgent) (req : IntelligenceRequest) :
    RouteStage :=
  if missingRequiredFields req then .validationError
  else
    let bids := getAgentBids R (req.budget.getD 0)
    if bids.isEmpty then .budgetTooLow 50000
    else .dispatch bids

/-- The cheapest base price in the static catalog. -/
def cheapestKnownPrice : ℚ :=
  ((initialAgents.map (·.basePrice)).min?).getD 0

/-- A specialist's reply JSON body as the route reads it: every field may
be absent, and no field is validated. -/
structure SpecialistPayload where
  score : Option ℚ
  analysis : Option String
  summary : Option String
  riskLevel : Option String
  flags : Option (List String)
  issues : Option (List String)
deriving DecidableEq, Repr

/-- JS `a || b` on optional strings: an empty string is falsy. -/
def jsOrStr : Option String → Option String → Option String
  | some s, b => if s = "" then b else some s
  | none, b => b

/-- JS `a || b` on optional arrays: every array (even `[]`) is truthy. -/
def jsOrList : Option (List String) → Option (List String) →
    Option (List String)
  | some l, _ => some l
  | none, b => b

/-- The object the route handler builds from a successful specialist call
(`return { agentId, agentName, score: response.data.score, ... }`). The
score is copied verbatim and may therefore be absent (undefined). -/
structure BuiltResponse where
  agentId : String
  agentName : String
  score : Option ℚ
  analysis : Option String
  riskLevel : Option String
  flags : List String
  metadataPrice : ℚ
deriving DecidableEq, Repr

/-- The construction of the per-agent result object in the route's
success path. -/
def buildResponse (bid : AgentBid) (p : SpecialistPayload) : BuiltResponse :=
  { agentId := bid.agentId
    agentName := bid.agentName
    score := p.score
    analysis := jsOrStr p.analysis p.summary
    riskLevel := p.riskLevel
    flags := (jsOrList p.flags p.issues).getD []
    metadataPrice := bid.price }

/-- Outcome of one specialist HTTP call: a 2xx reply with a JSON body, or
anything that throws (timeout, non-2xx, network error). -/
inductive CallOutcome where
  | httpSuccess : SpecialistPayload → CallOutcome
  | httpFailure : CallOutcome
deriving DecidableEq, Repr

/-- The per-bid `try`/`catch` of the route handler: a reply that parses
yields the built response and a `true` reputation flag; a thrown error
yields `null` and a `false` reputation flag. The dispatch collects the
non-null first components as `successfulResponses`. -/
def processCall (bid : AgentBid) (o : CallOutcome) :
    Option BuiltResponse × Bool :=
  match o with
  | .httpSuccess p => (some (buildResponse bid p), true)
  | .httpFailure => (none, false)

/-- `results.filter((r) => r !== null)`: the `successfulResponses` list the
route hands to `calculateConsensus`. -/
def collectSuccessful (results : List (Option BuiltResponse × Bool)) :
    List BuiltResponse :=
  results.filterMap (·.1)

/-- The spec's invariant "score ∈ [0,100]" on a possibly-absent score. -/
def scoreInRange (o : Option ℚ) : Prop := ∃ s, o = some s ∧ 0 ≤ s ∧ s ≤ 100

/-- The spec's invariant "risk-level is one of the four enumerated values"
on a possibly-absent risk level. -/
def validRiskLevel (o : Option String) : Prop :=
  o = some "LOW" ∨ o = some "MEDIUM" ∨ o = some "HIGH" ∨ o = some "CRITICAL"

/-! Helper lemmas about the consensus calculator. -/

lemma calculateConsensus_eq (rs : List AgentResponseC) (h : ¬rs.length = 0) :
    calculateConsensus rs = some
      { averageScore := jsRound (specMean (rs.map (·.score)))
        consensusStrength := specConsensusStrength (rs.map (·.score))
        recommendation :=
          determineRecommendation rs (specMean (rs.map (·.score)))
        confidence :=
          jsRound (rawConsensusStrength (rs.map (·.score)) * 100 *
            ((min rs.length 5 : ℕ) / 5 : ℚ))
        totalCost := (rs.map (fun r => r.metadataPrice.getD 0)).sum
        responses := rs } := by
  simp only [calculateConsensus, if_neg h, Option.some.injEq]
  simp [specConsensusStrength, rawConsensusStrength, calculateVariance_eq_spec,
    specMean, listSum_eq_sum]

/-- C9: `calculateConsensus` fails fast (throws, modelled as `none`) on an
empty response list, and returns a result on every non-empty list. -/
theorem consensus_empty_fails (rs : List AgentResponseC) :
    (calculateConsensus rs).isSome = true ↔ rs ≠ [] := by
  rcases rs with _ | ⟨r, rs⟩ <;> simp [calculateConsensus]

/-- C2: for every non-empty response list, `averageScore` is the rounded
arithmetic mean of the scores and `consensusStrength` is
max(0, 1 − V/2500) rounded to 2 decimals, V the population variance
(denominator N). -/
theorem consensus_average_and_strength (rs : List AgentResponseC)
    (c : ConsensusResult) (h : calculateConsensus rs = some c) :
    c.averageScore = jsRound (specMean (rs.map (·.score))) ∧
    c.consensusStrength = specConsensusStrength (rs.map (·.score)) := by
  have hne : ¬rs.length = 0 := by
    intro h0
    rw [calculateConsensus, if_pos h0] at h
    cases h
  rw [calculateConsensus_eq rs hne] at h
  cases h
  exact ⟨rfl, rfl⟩

/-- Closed instance of `consensus_average_and_strength` at a concrete
two-response input. -/
theorem consensus_average_and_strength_witness :
    calculateConsensus [⟨70, "LOW", none⟩, ⟨75, "LOW", some 80000⟩] =
      some { averageScore := 73, consensusStrength := 1
             recommendation := "MEDIUM RISK - EXERCISE CAUTION"
             confidence := 40, totalCost := 80000
             responses := [⟨70, "LOW", none⟩, ⟨75, "LOW", some 80000⟩] } ∧
    (73 : ℤ) = jsRound (specMean [70, 75]) ∧
    (1 : ℚ) = specConsensusStrength [70, 75] := by
  have h : calculateConsensus [⟨70, "LOW", none⟩, ⟨75, "LOW", some 80000⟩] =
      some { averageScore := 73, consensusStrength := 1
             recommendation := "MEDIUM RISK - EXERCISE CAUTION"
             confidence := 40, totalCost := 80000
             responses := [⟨70, "LOW", none⟩, ⟨75, "LOW", some 80000⟩] } := by
    simp only [calculateConsensus, determineRecommendation, listSum,
      calculateVariance, round2, jsRound, List.filter, List.foldl, List.map,
      List.length]
    norm_num [max_def, min_def]
  have h2 := consensus_average_and_strength _ _ h
  exact ⟨h, h2.1, h2.2⟩

lemma specVariance_singleton (s : ℚ) : specPopulationVariance [s] = 0 := by
  simp [specPopulationVariance, specMean]

lemma specVariance_five_same (s : ℚ) :
    specPopulationVariance [s, s, s, s, s] = 0 := by
  have hm : specMean [s, s, s, s, s] = s := by
    simp [specMean]
    ring
  unfold specPopulationVariance
  simp only [hm]
  simp [specMean]

/-- C3 (amended): `confidence` is computed from the UNROUNDED strength
max(0, 1 − V/2500) — not from the 2-decimal-rounded `consensusStrength`
field — as round(strength · 100 · min(N,5)/5); a single response of score
S yields averageScore = round(S) (= S for integer S), consensusStrength 1
and confidence 20, and five identical responses yield consensusStrength 1
and confidence 100. -/
theorem confidence_formula_raw_strength (rs : List AgentResponseC)
    (c : ConsensusResult) (h : calculateConsensus rs = some c) :
    c.confidence = jsRound (rawConsensusStrength (rs.map (·.score)) * 100 *
      ((min rs.length 5 : ℕ) / 5 : ℚ)) ∧
    (∀ r : AgentResponseC, rs = [r] →
      c.averageScore = jsRound r.score ∧ c.consensusStrength = 1 ∧
      c.confidence = 20) ∧
    (∀ r : AgentResponseC, rs = [r, r, r, r, r] →
      c.consensusStrength = 1 ∧ c.confidence = 100) := by
  have hne : ¬rs.length = 0 := by
    intro h0
    rw [calculateConsensus, if_pos h0] at h
    cases h
  rw [calculateConsensus_eq rs hne] at h
  cases h
  refine ⟨rfl, ?_, ?_⟩
  · rintro r rfl
    refine ⟨by simp [specMean], ?_, ?_⟩
    · simp only [List.map, specConsensusStrength, specVariance_singleton,
        round2, jsRound]
      norm_num
    · simp only [List.map, rawConsensusStrength, specVariance_singleton,
        jsRound, List.length]
      norm_num
  · rintro r rfl
    constructor
    · simp only [List.map, specConsensusStrength, specVariance_five_same,
        round2, jsRound]
      norm_num
    · simp only [List.map, rawConsensusStrength, specVariance_five_same,
        jsRound, List.length]
      norm_num

/-- Closed instance of `confidence_formula_raw_strength` at a single
concrete response. -/
theorem confidence_formula_raw_strength_witness :
    calculateConsensus [⟨64, "LOW", none⟩] =
      some { averageScore := 64, consensusStrength := 1
             recommendation := "MEDIUM RISK - EXERCISE CAUTION"
             confidence := 20, totalCost := 0
             responses := [⟨64, "LOW", none⟩] } ∧
    (64 : ℤ) = jsRound (64 : ℚ) ∧ (20 : ℤ) = 20 := by
  have h : calculateConsensus [⟨64, "LOW", none⟩] =
      some { averageScore := 64, consensusStrength := 1
             recommendation := "MEDIUM RISK - EXERCISE CAUTION"
             confidence := 20, totalCost := 0
             responses := [⟨64, "LOW", none⟩] } := by
    simp only [calculateConsensus, determineRecommendation, listSum,
      calculateVariance, round2, jsRound, List.filter, List.foldl, List.map,
      List.length]
    norm_num [max_def, min_def]
  have h2 := (confidence_formula_raw_strength _ _ h).2.1 ⟨64, "LOW", none⟩ rfl
  exact ⟨h, by rw [← h2.1], rfl⟩

/-- The two concrete responses refuting C3 as stated: scores 0 and 19. -/
def rsC3 : List AgentResponseC := [⟨0, "LOW", none⟩, ⟨19, "LOW", none⟩]

/-- C3 counterexample: on scores [0, 19] the returned `consensusStrength`
is 0.96 (2-decimal rounding of 0.9639) and the returned `confidence` is
39, but round(consensusStrength · 100 · min(N,5)/5) =
round(0.96 · 100 · 2/5) = 38 ≠ 39: the code feeds the unrounded strength
into the confidence formula, not the rounded `consensusStrength` the claim
names. -/
theorem confidence_uses_unrounded_strength_cex :
    (calculateConsensus rsC3).map ConsensusResult.consensusStrength =
      some (24 / 25) ∧
    (calculateConsensus rsC3).map ConsensusResult.confidence = some 39 ∧
    jsRound ((24 / 25) * 100 * ((min rsC3.length 5 : ℕ) / 5 : ℚ)) = 38 := by
  have h : calculateConsensus rsC3 =
      some { averageScore := 10, consensusStrength := 24 / 25
             recommendation := "CRITICAL RISK - AVOID COMPLETELY"
             confidence := 39, totalCost := 0, responses := rsC3 } := by
    simp only [rsC3, calculateConsensus, determineRecommendation, listSum,
      calculateVariance, round2, jsRound, List.filter, List.foldl, List.map,
      List.length]
    norm_num [max_def, min_def]
  rw [h]
  refine ⟨rfl, rfl, ?_⟩
  simp only [rsC3, List.length, jsRound]
  norm_num

lemma determineRecommendation_eq_spec (rs : List AgentResponseC) (m : ℚ) :
    determineRecommendation rs m = specRecommendation rs m := by
  simp only [determineRecommendation, specRecommendation]
  have h1 : 0 < (rs.filter (fun r => r.riskLevel = "CRITICAL")).length ↔
      rs.any (fun r => r.riskLevel = "CRITICAL") = true := by
    simp [← List.countP_eq_length_filter, List.countP_pos_iff, List.any_eq_true]
  have h2 : ((rs.filter (fun r => r.riskLevel = "HIGH")).length : ℚ) ≥
      (rs.length : ℚ) / 2 ↔
      rs.length ≤ 2 * rs.countP (fun r => r.riskLevel = "HIGH") := by
    rw [ge_iff_le, div_le_iff₀ (by norm_num : (0 : ℚ) < 2),
      ← List.countP_eq_length_filter, mul_comm]
    norm_cast
  exact if_congr h1 rfl (if_congr h2 rfl rfl)

/-- C1 (amended): the recommendation follows the claimed precedence (any
CRITICAL first, then majority-HIGH, then the 80/60/40 score tiers), but
the score tiers are evaluated on the UNROUNDED arithmetic mean of the
scores, not on the rounded `averageScore` field. -/
theorem recommendation_precedence_unrounded_mean (rs : List AgentResponseC)
    (c : ConsensusResult) (h : calculateConsensus rs = some c) :
    c.recommendation = specRecommendation rs (specMean (rs.map (·.score))) := by
  have hne : ¬rs.length = 0 := by
    intro h0
    rw [calculateConsensus, if_pos h0] at h
    cases h
  rw [calculateConsensus_eq rs hne] at h
  cases h
  exact determineRecommendation_eq_spec rs _

/-- Closed instance of `recommendation_precedence_unrounded_mean` at a
concrete response list. -/
theorem recommendation_precedence_unrounded_mean_witness :
    (calculateConsensus [⟨85, "LOW", none⟩]).map
        ConsensusResult.recommendation =
      some (specRecommendation [⟨85, "LOW", none⟩] (specMean [85])) := by
  have h : calculateConsensus [⟨85, "LOW", none⟩] =
      some { averageScore := 85, consensusStrength := 1
             recommendation := "LOW RISK - APPEARS SAFE"
             confidence := 20, totalCost := 0
             responses := [⟨85, "LOW", none⟩] } := by
    simp only [calculateConsensus, determineRecommendation, listSum,
      calculateVariance, round2, jsRound, List.filter, List.foldl, List.map,
      List.length]
    norm_num [max_def, min_def]
  rw [h, Option.map_some', recommendation_precedence_unrounded_mean _ _ h]
  rfl

/-- The five concrete responses refuting C1 as stated: scores
[79, 80, 80, 80, 80], all risk-level LOW. -/
def rsC1 : List AgentResponseC :=
  [⟨79, "LOW", none⟩, ⟨80, "LOW", none⟩, ⟨80, "LOW", none⟩,
   ⟨80, "LOW", none⟩, ⟨80, "LOW", none⟩]

/-- C1 counterexample: on scores [79, 80, 80, 80, 80] (no CRITICAL, no
HIGH) the returned `averageScore` is 80, so the claim's third rule
(averageScore ≥ 80) demands "LOW RISK - APPEARS SAFE"; the code instead
compares the unrounded mean 79.8 < 80 and returns
"MEDIUM RISK - EXERCISE CAUTION". -/
theorem rounded_mean_recommendation_cex :
    (calculateConsensus rsC1).map ConsensusResult.averageScore = some 80 ∧
    (calculateConsensus rsC1).map ConsensusResult.recommendation =
      some "MEDIUM RISK - EXERCISE CAUTION" ∧
    rsC1.countP (fun r => r.riskLevel = "CRITICAL") = 0 ∧
    2 * rsC1.countP (fun r => r.riskLevel = "HIGH") < rsC1.length := by
  have h : calculateConsensus rsC1 =
      some { averageScore := 80, consensusStrength := 1
             recommendation := "MEDIUM RISK - EXERCISE CAUTION"
             confidence := 100, totalCost := 0, responses := rsC1 } := by
    simp only [rsC1, calculateConsensus, determineRecommendation, listSum,
      calculateVariance, round2, jsRound, List.filter, List.foldl, List.map,
      List.length]
    norm_num [max_def, min_def]
  rw [h]
  exact ⟨rfl, rfl, by decide, by decide⟩

/-! Helper lemmas about the registry and the reputation updater. -/

lemma jsRound_intCast (n : ℤ) : jsRound (n : ℚ) = n := by
  rw [jsRound, add_comm, Int.floor_add_int]
  norm_num

lemma jsRound_natCast (n : ℕ) : jsRound (n : ℚ) = n := by
  have h := jsRound_intCast (n : ℤ)
  rw [Int.cast_natCast] at h
  exact h

/-- In every reachable registry state, each agent's `successRate` times its
`totalTasks` is a natural number (the accumulated success count), so the
`Math.round` in `updateAgentReputation` is the identity there. -/
lemma successRate_mul_totalTasks_nat (R : List RegisteredAgent)
    (hR : ReachableRegistry R) :
    ∀ a ∈ R, ∃ k : ℕ, a.successRate * a.totalTasks = k := by
  induction hR with
  | init =>
      intro a ha
      simp only [initialAgents, List.mem_cons, List.not_mem_nil,
        or_false] at ha
      rcases ha with rfl | rfl | rfl | rfl | rfl <;>
        exact ⟨0, by norm_num [securityAgent0, dataAgent0, socialAgent0,
          priceAgent0, historyAgent0]⟩
  | step id success rt hR ih =>
      intro a ha
      rcases List.mem_map.mp ha with ⟨b, hb, rfl⟩
      rcases ih b hb with ⟨k, hk⟩
      by_cases hid : b.id = id
      · simp only [if_pos hid]
        refine ⟨k + (if success then 1 else 0), ?_⟩
        have hne : ((b.totalTasks : ℚ) + 1) ≠ 0 := by positivity
        simp only [updateAgent, hk, jsRound_natCast]
        cases success <;>
          · push_cast
            field_simp
      · simp only [if_neg hid]
        exact ih b hb

lemma updateAgent_keeps_rate_one (a : RegisteredAgent)
    (h : a.successRate = 1) (rt : ℚ) :
    (updateAgent a true rt).successRate = 1 := by
  have hne : ((a.totalTasks : ℚ) + 1) ≠ 0 := by positivity
  simp only [updateAgent, h, one_mul, jsRound_natCast]
  push_cast
  field_simp

lemma allSuccessCalls_rate_one (a : RegisteredAgent)
    (h : a.successRate = 1) (rts : List ℚ) :
    (allSuccessCalls a rts).successRate = 1 := by
  induction rts generalizing a with
  | nil => exact h
  | cons t rts ih =>
      simp only [allSuccessCalls, List.foldl_cons]
      exact ih _ (updateAgent_keeps_rate_one a h t)

/-- C7: on every reachable registry state, an `updateAgentReputation` call
on a known id updates exactly that agent's record: totalTasks + 1,
successRate set to the exact running mean, reputation =
round(successRate·100), averageResponseTime set to the running mean; and
any number of all-success calls on a fresh (successRate = 1) agent leave
successRate exactly 1. -/
theorem updateReputation_running_mean (R : List RegisteredAgent)
    (hR : ReachableRegistry R) (a : RegisteredAgent) (ha : a ∈ R)
    (success : Bool) (rt : ℚ) :
    updateAgent a success rt ∈ updateAgentReputation R a.id success rt ∧
    (updateAgent a success rt).totalTasks = a.totalTasks + 1 ∧
    (updateAgent a success rt).successRate =
      (a.successRate * a.totalTasks + (if success then 1 else 0)) /
        ((a.totalTasks : ℚ) + 1) ∧
    (updateAgent a success rt).reputation =
      jsRound ((updateAgent a success rt).successRate * 100) ∧
    (updateAgent a success rt).averageResponseTime =
      (a.averageResponseTime * a.totalTasks + rt) / ((a.totalTasks : ℚ) + 1) ∧
    ∀ rts : List ℚ, a.successRate = 1 →
      (allSuccessCalls a rts).successRate = 1 := by
  refine ⟨?_, rfl, ?_, rfl, ?_, fun rts h1 => allSuccessCalls_rate_one a h1 rts⟩
  · exact List.mem_map.mpr ⟨a, ha, by rw [if_pos rfl]⟩
  · rcases successRate_mul_totalTasks_nat R hR a ha with ⟨k, hk⟩
    have hjs : jsRound (a.successRate * a.totalTasks) = (k : ℤ) := by
      rw [hk, jsRound_natCast]
    simp only [updateAgent, hjs]
    cases success <;>
      · push_cast
        rw [← hk]
  · simp only [updateAgent]
    push_cast
    ring

/-- Closed instance of `updateReputation_running_mean` on the fresh
security specialist. -/
theorem updateReputation_running_mean_witness :
    (updateAgent securityAgent0 true 1000).successRate =
      (securityAgent0.successRate * securityAgent0.totalTasks + 1) /
        ((securityAgent0.totalTasks : ℚ) + 1) ∧
    (allSuccessCalls securityAgent0 [1000, 2000, 3000]).successRate = 1 := by
  have h := updateReputation_running_mean initialAgents ReachableRegistry.init
    securityAgent0 (by simp [initialAgents]) true 1000
  exact ⟨by simpa using h.2.2.1, h.2.2.2.2.2 [1000, 2000, 3000] rfl⟩

/-- C8: `updateAgentReputation` on an id not present in the registry is a
no-op — it returns (never throws, being total) and leaves every record
unchanged. -/
theorem updateReputation_unknown_id_noop (R : List RegisteredAgent)
    (id : String) (success : Bool) (rt : ℚ) (h : ∀ a ∈ R, a.id ≠ id) :
    updateAgentReputation R id success rt = R := by
  revert h
  induction R with
  | nil => intro _; rfl
  | cons a R ih =>
      intro h
      simp only [updateAgentReputation, List.map_cons]
      rw [if_neg (h a (List.mem_cons_self a R))]
      have h2 := ih (fun b hb => h b (List.mem_cons_of_mem a hb))
      simp only [updateAgentReputation] at h2
      rw [h2]

/-- Closed instance of `updateReputation_unknown_id_noop`: an unknown id
against the initial catalog. -/
theorem updateReputation_unknown_id_noop_witness :
    updateAgentReputation initialAgents "ghost-001" true 1234 =
      initialAgents :=
  updateReputation_unknown_id_noop initialAgents "ghost-001" true 1234
    (by decide)

/-! Helper lemmas about the bid query and the route's pre-network phase. -/

lemma getAgentBids_eq_nil (R : List RegisteredAgent) (budget : ℚ)
    (h : ∀ a ∈ R, a.active = true → budget < a.basePrice) :
    getAgentBids R budget = [] := by
  unfold getAgentBids getAllActiveAgents
  have hf : (R.filter (·.active)).filter
      (fun a => a.basePrice ≤ budget) = [] := by
    rw [List.filter_eq_nil_iff]
    intro a ha
    have hmem := List.mem_filter.mp ha
    have hact : a.active = true := by simpa using hmem.2
    simp only [decide_eq_true_eq]
    exact not_le.mpr (h a hmem.1 hact)
  rw [hf]
  rfl

lemma initial_prices_above (b : ℚ) (hb : b < 50000) :
    ∀ a ∈ initialAgents, a.active = true → b < a.basePrice := by
  intro a ha _
  simp only [initialAgents, List.mem_cons, List.not_mem_nil, or_false] at ha
  rcases ha with rfl | rfl | rfl | rfl | rfl <;>
    · simp only [securityAgent0, dataAgent0, socialAgent0, priceAgent0,
        historyAgent0]
      linarith

/-- C6: whenever every active specialist's price exceeds the budget,
`getAgentBids` returns the empty list, and the route then answers with the
budget-too-low error whose `minimumBudget` guidance equals the cheapest
known specialist price (50000). -/
theorem empty_bids_budget_too_low_guidance :
    (∀ (R : List RegisteredAgent) (budget : ℚ),
        (∀ a ∈ R, a.active = true → budget < a.basePrice) →
        getAgentBids R budget = []) ∧
    (∀ (req : IntelligenceRequest) (b : ℚ), req.budget = some b →
        missingRequiredFields req = false →
        (∀ a ∈ initialAgents, a.active = true → b < a.basePrice) →
        routeDecision initialAgents req =
          .budgetTooLow cheapestKnownPrice) := by
  have hc : cheapestKnownPrice = 50000 := by
    norm_num [cheapestKnownPrice, initialAgents, securityAgent0, dataAgent0,
      socialAgent0, priceAgent0, historyAgent0, List.min?, min_def]
  refine ⟨getAgentBids_eq_nil, ?_⟩
  intro req b hb hval hprice
  rw [hc]
  unfold routeDecision
  rw [if_neg (by simp [hval])]
  have hbids : getAgentBids initialAgents (req.budget.getD 0) = [] := by
    rw [hb]
    exact getAgentBids_eq_nil _ _ hprice
  simp only [hbids, List.isEmpty_nil, if_true]

/-- The concrete request used to instantiate
`empty_bids_budget_too_low_guidance`. -/
def reqW6 : IntelligenceRequest :=
  { query := some "analyze this token", tokenAddress := none,
    budget := some 49999, requesterAddress := some "SPREQ1" }

/-- Closed instance of `empty_bids_budget_too_low_guidance` at budget
49999, below every specialist's price. -/
theorem empty_bids_budget_too_low_guidance_witness :
    getAgentBids initialAgents 49999 = [] ∧
    routeDecision initialAgents reqW6 = .budgetTooLow cheapestKnownPrice := by
  have hp := initial_prices_above 49999 (by norm_num)
  exact ⟨empty_bids_budget_too_low_guidance.1 initialAgents 49999 hp,
    empty_bids_budget_too_low_guidance.2 reqW6 49999 rfl
      (by
        norm_num [reqW6, missingRequiredFields, falsyStr, falsyNum]
        exact ⟨by decide, by decide⟩) hp⟩

/-- C5 (amended): a request with falsy query (missing or empty), falsy
budget (missing or 0) or falsy requester identity is rejected with the 400
validation error before any specialist call; a request that passes the
falsiness check but whose budget is below every price (e.g. any negative
budget) is rejected with the budget-too-low error — not the validation
error — still before any network call. A positive non-integer budget is
not rejected by validation at all (see the counterexample). -/
theorem validation_gate :
    (∀ req : IntelligenceRequest, missingRequiredFields req = true →
        routeDecision initialAgents req = .validationError) ∧
    (∀ (req : IntelligenceRequest) (b : ℚ), req.budget = some b →
        missingRequiredFields req = false → b < 50000 →
        routeDecision initialAgents req = .budgetTooLow 50000) := by
  constructor
  · intro req h
    unfold routeDecision
    rw [if_pos (by simp [h])]
  · intro req b hb hval hlt
    unfold routeDecision
    rw [if_neg (by simp [hval])]
    have hbids : getAgentBids initialAgents (req.budget.getD 0) = [] := by
      rw [hb]
      exact getAgentBids_eq_nil _ _ (initial_prices_above b hlt)
    simp only [hbids, List.isEmpty_nil, if_true]

/-- Closed instance of `validation_gate`: a missing query is a validation
error; a negative budget is rejected as budget-too-low. -/
theorem validation_gate_witness :
    routeDecision initialAgents
        { query := none, tokenAddress := none, budget := some 70000,
          requesterAddress := some "SPREQ2" } = .validationError ∧
    routeDecision initialAgents
        { query := some "scan contract", tokenAddress := none,
          budget := some (-5), requesterAddress := some "SPREQ2" } =
      .budgetTooLow 50000 :=
  ⟨validation_gate.1 _ rfl,
   validation_gate.2 _ (-5) rfl
     (by
       norm_num [missingRequiredFields, falsyStr, falsyNum]
       exact ⟨by decide, by decide⟩) (by norm_num)⟩

/-- The concrete request refuting C5 as stated: a positive non-integer
budget of 100000.5 microSTX. -/
def reqC5 : IntelligenceRequest :=
  { query := some "check token", tokenAddress := none,
    budget := some (200001 / 2), requesterAddress := some "SP123" }

/-- C5 counterexample: the budget 200001/2 = 100000.5 is positive and not
an integer (denominator 2), so by the claim the dispatcher should fail
with a validation error before any specialist network call; instead the
handler accepts it and dispatches 4 bids to specialists. -/
theorem nonintegral_budget_dispatches_cex :
    (reqC5.budget.getD 0).den = 2 ∧ 0 < reqC5.budget.getD 0 ∧
    routeDecision initialAgents reqC5 ≠ .validationError ∧
    (routeDecision initialAgents reqC5).isDispatch = true ∧
    (routeDecision initialAgents reqC5).dispatchCount = 4 := by
  have hroute : routeDecision initialAgents reqC5 = .dispatch
      [ { agentId := "security-001", agentName := "SecurityAgent",
          endpoint := "http://localhost:3002", price := 100000,
          estimatedTime := 2000, confidence := 95 }
      , { agentId := "history-001", agentName := "HistoryAgent",
          endpoint := "http://localhost:3006", price := 80000,
          estimatedTime := 2000, confidence := 93 }
      , { agentId := "data-001", agentName := "DataAgent",
          endpoint := "http://localhost:3003", price := 80000,
          estimatedTime := 1500, confidence := 92 }
      , { agentId := "social-001", agentName := "SocialAgent",
          endpoint := "http://localhost:3004", price := 50000,
          estimatedTime := 3000, confidence := 88 } ] := by
    simp only [routeDecision, reqC5, missingRequiredFields, falsyStr,
      falsyNum, getAgentBids, getAllActiveAgents, initialAgents,
      securityAgent0, dataAgent0, socialAgent0, priceAgent0, historyAgent0,
      sortBids, List.filter_cons, List.filter_nil, List.map,
      List.foldl, decide_eq_true_eq]
    norm_num [insertBid, decide_eq_true_eq]
    rintro (h | h) <;> exact absurd h (by decide)
  rw [hroute]
  refine ⟨by norm_num [reqC5], by norm_num [reqC5], ?_, rfl, rfl⟩
  intro h
  cases h

/-! Per-call result construction: C4 and C10. -/

/-- The winning bid used in the C4 evaluation. -/
def bidC4 : AgentBid :=
  { agentId := "security-001", agentName := "SecurityAgent",
    endpoint := "http://localhost:3002", price := 100000,
    estimatedTime := 2000, confidence := 95 }

/-- A specialist reply that parses as JSON but carries no `score` field. -/
def payloadC4 : SpecialistPayload :=
  { score := none, analysis := some "token looks fine", summary := none,
    riskLevel := some "LOW", flags := none, issues := none }

/-- C4 (evaluating the code at the failing input): a 2xx specialist reply
whose payload lacks `score` is nonetheless treated as a success — the
specialist gets a success (`true`) reputation update, and the built
response, with `score` undefined, is kept by the `r !== null` filter and
so enters the consensus input, contradicting the claim that a missing
score is treated as a specialist failure. -/
theorem missing_score_admitted_as_success :
    (processCall bidC4 (.httpSuccess payloadC4)).2 = true ∧
    collectSuccessful [processCall bidC4 (.httpSuccess payloadC4)] =
      [buildResponse bidC4 payloadC4] ∧
    (buildResponse bidC4 payloadC4).score = none ∧
    (buildResponse bidC4 payloadC4).riskLevel = some "LOW" :=
  ⟨rfl, rfl, rfl, rfl⟩

/-- C10 (amended): the route copies `score` and `riskLevel` verbatim from
the specialist's payload — no clamping or enum validation — so the
constructed response satisfies the score-range and risk-level invariants
exactly when the payload already does. -/
theorem built_response_invariant_iff (bid : AgentBid)
    (p : SpecialistPayload) :
    ((buildResponse bid p).score = p.score ∧
     (buildResponse bid p).riskLevel = p.riskLevel) ∧
    (scoreInRange (buildResponse bid p).score ↔ scoreInRange p.score) ∧
    (validRiskLevel (buildResponse bid p).riskLevel ↔
      validRiskLevel p.riskLevel) :=
  ⟨⟨rfl, rfl⟩, Iff.rfl, Iff.rfl⟩

/-- The winning bid used in the C10 counterexample. -/
def bidC10 : AgentBid :=
  { agentId := "data-001", agentName := "DataAgent",
    endpoint := "http://localhost:3003", price := 80000,
    estimatedTime := 1500, confidence := 92 }

/-- A specialist reply with an out-of-range score and an unknown
risk-level string. -/
def payloadC10 : SpecialistPayload :=
  { score := some 150, analysis := some "supply analysis", summary := none,
    riskLevel := some "BANANA", flags := none, issues := none }

/-- C10 counterexample: from the payload {score: 150, riskLevel:
"BANANA"} the dispatcher constructs (and admits as a success) a response
whose score is 150 ∉ [0,100] and whose risk level is not one of the four
enumerated values. -/
theorem invariant_unvalidated_payload_cex :
    (processCall bidC10 (.httpSuccess payloadC10)).2 = true ∧
    (buildResponse bidC10 payloadC10).score = some 150 ∧
    ¬scoreInRange (buildResponse bidC10 payloadC10).score ∧
    ¬validRiskLevel (buildResponse bidC10 payloadC10).riskLevel := by
  refine ⟨rfl, rfl, ?_, ?_⟩
  · rintro ⟨s, hs, h0, h100⟩
    have hs' : (150 : ℚ) = s := by
      simpa [buildResponse, payloadC10] using hs
    rw [← hs'] at h100
    norm_num at h100
  · rintro (h | h | h | h) <;> simp [buildResponse, payloadC10] at h

end AgentSwarm
